import Mathlib

/-!
Verification of the client-side conversational state machine of the ASAS-QS
chat widget: persisted-store loading, history reconstruction for session
initialization, the send request/response cycle, and the speech-input handlers.
The widget component state is embedded as an explicit record, and the
asynchronous send handler as a state-transition function parameterised by the
backend call's outcome.
-/

namespace Asasqs

/-- Role of a conversational turn, from types.ts. -/
inductive Role where
  | user
  | model
  | error
deriving DecidableEq, Repr

/-- A grounding citation entry attached to a model turn (the element type of the
optional sources field in types.ts). -/
structure MessageSource where
  uri : String
  title : String
deriving DecidableEq, Repr

/-- A conversational turn (Message in types.ts); sources is optional and absent by
default. -/
structure Message where
  role : Role
  content : String
  sources : Option (List MessageSource) := none
deriving DecidableEq, Repr

/-- The synthetic welcome turn seeded into an empty store (ChatWidget initialMessage,
lines 64-67). -/
def initialMessage : Message :=
  { role := Role.model
    content := "Hello! Welcome to ASASQS. I\x27m your friendly ASAS-QS AI Assistant. How can I help you with our quantity surveying services today?" }

/-- Outcome of reading the persisted chatWidgetMessages key and running it through
JSON.parse: the key can be missing (or hold a falsy string), parsing can throw,
the parsed value can fail the Array.isArray check, or it is an array of turns. -/
inductive StoredMessages where
  | absent
  | parseFailure
  | nonArray
  | array (msgs : List Message)
deriving DecidableEq, Repr

/-- The messages useState initializer (ChatWidget lines 69-83): a parsed non-empty
array is taken as-is, every other case falls back to the single welcome turn; the
parse failure is caught, so no case throws. -/
def loadMessages : StoredMessages → List Message
  | StoredMessages.absent => [initialMessage]
  | StoredMessages.parseFailure => [initialMessage]
  | StoredMessages.nonArray => [initialMessage]
  | StoredMessages.array msgs => if msgs.length > 0 then msgs else [initialMessage]

/-- One text part of a backend history turn. -/
structure HistoryPart where
  text : String
deriving DecidableEq, Repr

/-- The backend's expected turn shape: role plus text parts. -/
structure HistoryTurn where
  role : Role
  parts : List HistoryPart
deriving DecidableEq, Repr

/-- The per-message mapping inside the history reconstruction (lines 115-118). -/
def historyTurn (msg : Message) : HistoryTurn :=
  { role := msg.role, parts := [{ text := msg.content }] }

/-- History reconstruction for session init (lines 113-118): keep turns whose role is
user or model, and map each to the backend turn shape. -/
def initHistory (messages : List Message) : List HistoryTurn :=
  (messages.filter fun msg => msg.role == Role.user || msg.role == Role.model).map
    historyTurn

/-- The web object of a grounding chunk; both fields are optional in the backend
response. -/
structure GroundingChunkWeb where
  uri : Option String := none
  title : Option String := none
deriving DecidableEq, Repr

/-- A grounding chunk of the backend response; the web object may be missing. -/
structure GroundingChunk where
  web : Option GroundingChunkWeb := none
deriving DecidableEq, Repr

/-- Grounding metadata of a response candidate. -/
structure GroundingMetadata where
  groundingChunks : Option (List GroundingChunk) := none
deriving DecidableEq, Repr

/-- One response candidate; grounding metadata may be missing. -/
structure Candidate where
  groundingMetadata : Option GroundingMetadata := none
deriving DecidableEq, Repr

/-- The backend send response: reply text plus an optional candidate list. -/
structure GenerateContentResponse where
  text : String
  candidates : Option (List Candidate) := none
deriving DecidableEq, Repr

/-- The filter over mapped web objects (lines 185-187): keep a chunk's web object when
it is present and both its uri and title are truthy, i.e. present and non-empty,
narrowed to the (uri, title) pair. -/
def chunkWebSources (chunks : List GroundingChunk) : List MessageSource :=
  (chunks.map GroundingChunk.web).filterMap fun w =>
    match w with
    | some web =>
      match web.uri, web.title with
      | some u, some t => if u != "" && t != "" then some { uri := u, title := t } else none
      | _, _ => none
    | none => none

/-- The optional-chaining path response.candidates?.[0]?.groundingMetadata?
.groundingChunks (line 184 with line 185): any missing link yields none. -/
def groundingChunkList (response : GenerateContentResponse) : Option (List GroundingChunk) :=
  ((response.candidates.bind List.head?).bind Candidate.groundingMetadata).bind
    GroundingMetadata.groundingChunks

/-- The sources local of handleSendMessage (lines 185-187). -/
def extractSources (response : GenerateContentResponse) : Option (List MessageSource) :=
  (groundingChunkList response).map chunkWebSources

/-- The backend citation list filtered to pairs with non-empty uri and title, reading a
missing chunk list as no citations. -/
def filteredCitations (response : GenerateContentResponse) : List MessageSource :=
  chunkWebSources ((groundingChunkList response).getD [])

/-- The model Message built on a successful send (lines 189-193): sources is attached
only when the filtered list is non-empty. -/
def modelMessage (response : GenerateContentResponse) : Message :=
  { role := Role.model
    content := response.text
    sources :=
      match extractSources response with
      | some l => if l.length > 0 then some l else none
      | none => none }

/-- The generic error Message appended when the backend call fails (line 197). -/
def sendErrorMessage : Message :=
  { role := Role.error, content := "Sorry, something went wrong. Please try again." }

/-- The error Message appended when session construction fails (line 130). -/
def initFailureMessage : Message :=
  { role := Role.error
    content := "Failed to initialize the chat assistant. Please check the API key and configuration." }

/-- The error Message appended when microphone permission is denied (line 153). -/
def micErrorMessage : Message :=
  { role := Role.error
    content := "Microphone access was denied. Please allow it in your browser settings to use voice input." }

/-- The opaque remote session handle stored in chatRef.current, recording the history
it was created with. -/
structure SessionHandle where
  history : List HistoryTurn
deriving DecidableEq, Repr

/-- The ChatWidget component state relevant to the conversational core; defaults are
the startup values of the corresponding useState/useRef cells. -/
structure ChatState where
  isOpen : Bool := false
  isLoading : Bool := false
  messages : List Message := [initialMessage]
  userInput : String := ""
  isRecording : Bool := false
  chatRef : Option SessionHandle := none
deriving DecidableEq, Repr

/-- Outcome of the awaited backend sendMessage call: a response, or a thrown or
rejected error. -/
inductive SendOutcome where
  | success (response : GenerateContentResponse)
  | failure
deriving DecidableEq, Repr

/-- Outcome of remote session construction inside initChat. -/
inductive InitOutcome where
  | success
  | failure
deriving DecidableEq, Repr

/-- initChat (lines 109-133): on success store a session handle seeded with the
reconstructed history; on failure the error is caught, the init failure Message is
appended, and chatRef is left untouched. -/
def initChat (s : ChatState) : InitOutcome → ChatState
  | InitOutcome.success => { s with chatRef := some { history := initHistory s.messages } }
  | InitOutcome.failure => { s with messages := s.messages ++ [initFailureMessage] }

/-- handleSendMessage (lines 173-202), with the backend call's outcome supplied as a
parameter. Returns the state once the send has completed, paired with whether the
backend call was issued. The guard mirrors line 174; on the main path the user turn is
appended and the input cleared before the call, the reply or error turn is appended
after it, and the loading flag is cleared in the finally block. -/
def handleSendMessage (s : ChatState) (outcome : SendOutcome) : ChatState × Bool :=
  if s.userInput.trim = "" ∨ s.isLoading = true ∨ s.chatRef = none then
    (s, false)
  else
    let userMessage : Message := { role := Role.user, content := s.userInput }
    let afterUser : ChatState :=
      { s with messages := s.messages ++ [userMessage], userInput := "", isLoading := true }
    match outcome with
    | SendOutcome.success response =>
        ({ afterUser with
            messages := afterUser.messages ++ [modelMessage response]
            isLoading := false }, true)
    | SendOutcome.failure =>
        ({ afterUser with
            messages := afterUser.messages ++ [sendErrorMessage]
            isLoading := false }, true)

/-- The reply turn a completed send appends after the user turn. -/
def replyMessage : SendOutcome → Message
  | SendOutcome.success response => modelMessage response
  | SendOutcome.failure => sendErrorMessage

/-- recognition.onresult (lines 143-146): append the transcript to the pending input,
separated by a space when the input is non-empty (a JS truthiness test on the previous
value). -/
def onResult (s : ChatState) (transcript : String) : ChatState :=
  { s with userInput := (if s.userInput != "" then s.userInput ++ " " else "") ++ transcript }

/-- recognition.onerror (lines 150-156): append the microphone error Message exactly
when the error code is not-allowed, then reset the recording flag. -/
def onSpeechError (s : ChatState) (code : String) : ChatState :=
  let s1 :=
    if code = "not-allowed" then { s with messages := s.messages ++ [micErrorMessage] }
    else s
  { s1 with isRecording := false }

/-- A sequence of completed sends: before each send the user replaces the pending input
with that send's text, then the send runs to completion with the given outcome. -/
def runSends (s : ChatState) : List (String × SendOutcome) → ChatState
  | [] => s
  | e :: rest => runSends (handleSendMessage { s with userInput := e.1 } e.2).1 rest

/-- The transcript segment contributed by a list of completed send events: per event,
the user turn followed by its reply turn. -/
def sendTranscript (events : List (String × SendOutcome)) : List Message :=
  events.flatMap fun e => [{ role := Role.user, content := e.1 }, replyMessage e.2]

/-- A send whose three guards pass appends the user turn and the reply turn, clears the
input, clears the loading flag, and issues the backend call, leaving the other fields
alone. -/
theorem handleSend_guard_pass (s : ChatState) (outcome : SendOutcome)
    (htrim : s.userInput.trim ≠ "") (hload : s.isLoading = false)
    (hchat : s.chatRef ≠ none) :
    handleSendMessage s outcome =
      ({ s with
          messages := s.messages ++
            [{ role := Role.user, content := s.userInput }, replyMessage outcome]
          userInput := ""
          isLoading := false }, true) := by
  rw [handleSendMessage, if_neg]
  · cases outcome <;> simp [replyMessage]
  · push_neg
    exact ⟨htrim, by simp [hload], hchat⟩

/-- A concrete idle state with a session handle and pending input, used by witnesses. -/
def wState : ChatState :=
  { userInput := "hi", chatRef := some { history := [] } }

/-- Evaluation fact used by witnesses: the concrete pending input survives trimming.
String.trim is defined by well-founded recursion, so the recursive steps are unfolded
by their equations before kernel evaluation. -/
theorem hi_trim_ne : ("hi" : String).trim ≠ "" := by
  rw [String.trim, Substring.trim, Substring.takeWhileAux, Substring.takeRightWhileAux]
  decide

/-- C1: when the persisted messages key is absent, holds malformed JSON, holds a
non-array value, or holds an empty array, the startup load returns exactly the
single-element default welcome sequence, whose one turn has role model; the load is a
total function, so it never throws. -/
theorem load_degenerate_default (stored : StoredMessages)
    (h : stored = StoredMessages.absent ∨ stored = StoredMessages.parseFailure ∨
         stored = StoredMessages.nonArray ∨ stored = StoredMessages.array []) :
    loadMessages stored = [initialMessage] ∧ initialMessage.role = Role.model := by
  rcases h with h | h | h | h <;> subst h <;> exact ⟨rfl, rfl⟩

/-- Witness for load_degenerate_default at the absent key. -/
theorem load_degenerate_default_witness :
    loadMessages StoredMessages.absent = [initialMessage] ∧
      initialMessage.role = Role.model :=
  load_degenerate_default StoredMessages.absent (Or.inl rfl)

/-- C2: history reconstruction for session init equals the subsequence of turns whose
role is not error, kept in their relative order, each mapped to the backend turn
shape. -/
theorem initHistory_excludes_errors (messages : List Message) :
    initHistory messages =
      (messages.filter fun msg => msg.role != Role.error).map historyTurn := by
  unfold initHistory
  refine congrArg (List.map historyTurn) (List.filter_congr ?_)
  intro m _
  rcases m with ⟨r, c, src⟩
  cases r <;> rfl

/-- C3: a send invocation with blank trimmed input, or one arriving while a send is in
flight, or one with an unset session handle, returns the state unchanged and issues no
backend call. -/
theorem send_precondition_noop (s : ChatState) (outcome : SendOutcome)
    (h : s.userInput.trim = "" ∨ s.isLoading = true ∨ s.chatRef = none) :
    handleSendMessage s outcome = (s, false) := by
  rw [handleSendMessage, if_pos h]

/-- Witness for send_precondition_noop at a state whose session handle is unset. -/
theorem send_precondition_noop_witness :
    handleSendMessage { userInput := "hi" } SendOutcome.failure =
      ({ userInput := "hi" }, false) :=
  send_precondition_noop { userInput := "hi" } SendOutcome.failure (Or.inr (Or.inr rfl))

/-- C4: a successful send appends the user turn and then a model Message carrying the
reply text, whose sources equal the backend citation list filtered to pairs with
non-empty uri and title, and are present exactly when that filtered list is
non-empty. -/
theorem send_success_model_message (s : ChatState) (response : GenerateContentResponse)
    (htrim : s.userInput.trim ≠ "") (hload : s.isLoading = false)
    (hchat : s.chatRef ≠ none) :
    (handleSendMessage s (SendOutcome.success response)).1.messages =
        s.messages ++
          [{ role := Role.user, content := s.userInput }, modelMessage response]
    ∧ (modelMessage response).role = Role.model
    ∧ (modelMessage response).content = response.text
    ∧ (modelMessage response).sources =
        (if filteredCitations response = [] then none
         else some (filteredCitations response)) := by
  refine ⟨?_, rfl, rfl, ?_⟩
  · rw [handleSend_guard_pass s _ htrim hload hchat]
    rfl
  · show (match extractSources response with
        | some l => if l.length > 0 then some l else none
        | none => none) = _
    rw [extractSources, filteredCitations]
    cases hgc : groundingChunkList response with
    | none => simp [chunkWebSources]
    | some chunks =>
      simp only [Option.map_some, Option.getD_some]
      cases hl : chunkWebSources chunks with
      | nil => simp [hl]
      | cons a l => simp [hl]

/-- Witness for send_success_model_message at a citation-free response. -/
theorem send_success_model_message_witness :
    (handleSendMessage wState (SendOutcome.success { text := "ok" })).1.messages =
        wState.messages ++
          [{ role := Role.user, content := wState.userInput },
           modelMessage { text := "ok" }]
    ∧ (modelMessage { text := "ok" }).role = Role.model
    ∧ (modelMessage { text := "ok" }).content = "ok"
    ∧ (modelMessage { text := "ok" }).sources =
        (if filteredCitations { text := "ok" } = [] then none
         else some (filteredCitations { text := "ok" })) :=
  send_success_model_message wState { text := "ok" } hi_trim_ne rfl (by decide)

/-- C5: a send whose backend call throws appends, after the user turn, exactly one
error Message with the generic failure text; and after either outcome the loading flag
is cleared. -/
theorem send_failure_error_message (s : ChatState)
    (htrim : s.userInput.trim ≠ "") (hload : s.isLoading = false)
    (hchat : s.chatRef ≠ none) :
    (handleSendMessage s SendOutcome.failure).1.messages =
        s.messages ++
          [{ role := Role.user, content := s.userInput }, sendErrorMessage]
    ∧ sendErrorMessage.role = Role.error
    ∧ sendErrorMessage.content = "Sorry, something went wrong. Please try again."
    ∧ ∀ outcome : SendOutcome,
        (handleSendMessage s outcome).1.isLoading = false := by
  refine ⟨?_, rfl, rfl, fun outcome => ?_⟩
  · rw [handleSend_guard_pass s _ htrim hload hchat]
    rfl
  · rw [handleSend_guard_pass s outcome htrim hload hchat]

/-- Witness for send_failure_error_message at the concrete idle state. -/
theorem send_failure_error_message_witness :
    (handleSendMessage wState SendOutcome.failure).1.messages =
        wState.messages ++
          [{ role := Role.user, content := wState.userInput }, sendErrorMessage]
    ∧ sendErrorMessage.role = Role.error
    ∧ sendErrorMessage.content = "Sorry, something went wrong. Please try again."
    ∧ ∀ outcome : SendOutcome,
        (handleSendMessage wState outcome).1.isLoading = false :=
  send_failure_error_message wState hi_trim_ne rfl (by decide)

/-- The store after a run of completed sends is the starting store followed by the
transcript segment of the events, provided the handle is set, no send is in flight,
and every input survives trimming. -/
theorem runSends_messages (events : List (String × SendOutcome)) :
    ∀ s : ChatState, s.chatRef ≠ none → s.isLoading = false →
      (∀ e ∈ events, (e.1 : String).trim ≠ "") →
      (runSends s events).messages = s.messages ++ sendTranscript events := by
  induction events with
  | nil =>
    intro s _ _ _
    simp [runSends, sendTranscript]
  | cons e rest ih =>
    intro s hchat hload hins
    rw [runSends,
        handleSend_guard_pass { s with userInput := e.1 } e.2
          (hins e (List.mem_cons_self e rest)) hload hchat]
    refine (ih _ ?_ ?_ ?_).trans ?_
    · exact hchat
    · rfl
    · exact fun x hx => hins x (List.mem_cons_of_mem e hx)
    · simp [sendTranscript]

/-- The transcript segment of N events has 2N turns. -/
theorem sendTranscript_length (events : List (String × SendOutcome)) :
    (sendTranscript events).length = 2 * events.length := by
  induction events with
  | nil => rfl
  | cons e rest ih =>
    simp only [sendTranscript, List.flatMap_cons, List.length_append,
      List.length_cons, List.length_nil] at ih ⊢
    omega

/-- C6: from any idle state with a set session handle, N completed sends leave the
store equal to the initial messages followed by, per send in call order, its user turn
and then its reply turn; the appended segment has 2N turns, pairing each of the N user
turns with one turn whose role is model or error. -/
theorem sends_interleaved (s : ChatState) (events : List (String × SendOutcome))
    (hchat : s.chatRef ≠ none) (hload : s.isLoading = false)
    (hins : ∀ e ∈ events, (e.1 : String).trim ≠ "") :
    (runSends s events).messages = s.messages ++ sendTranscript events
    ∧ (sendTranscript events).length = 2 * events.length
    ∧ ∀ e ∈ events,
        ({ role := Role.user, content := e.1 } : Message).role = Role.user
        ∧ ((replyMessage e.2).role = Role.model ∨ (replyMessage e.2).role = Role.error) := by
  refine ⟨runSends_messages events s hchat hload hins, sendTranscript_length events, ?_⟩
  intro e _
  rcases e with ⟨t, o⟩
  refine ⟨rfl, ?_⟩
  cases o with
  | success response => exact Or.inl rfl
  | failure => exact Or.inr rfl

/-- Witness for sends_interleaved on a single failing send. -/
theorem sends_interleaved_witness :
    (runSends wState [("hi", SendOutcome.failure)]).messages =
        wState.messages ++ sendTranscript [("hi", SendOutcome.failure)]
    ∧ (sendTranscript [("hi", SendOutcome.failure)]).length =
        2 * ([("hi", SendOutcome.failure)] : List (String × SendOutcome)).length
    ∧ ∀ e ∈ ([("hi", SendOutcome.failure)] : List (String × SendOutcome)),
        ({ role := Role.user, content := e.1 } : Message).role = Role.user
        ∧ ((replyMessage e.2).role = Role.model ∨ (replyMessage e.2).role = Role.error) :=
  sends_interleaved wState [("hi", SendOutcome.failure)] (by decide) rfl
    (by
      intro e he
      rw [List.mem_singleton] at he
      subst he
      exact hi_trim_ne)

/-- C7: a failed session construction at startup appends exactly one error Message,
leaves the session handle unset, and every subsequent send invocation, whatever input
is then pending, returns the state unchanged and issues no backend call. -/
theorem init_failure_disables_sends (s : ChatState) (hchat : s.chatRef = none) :
    (initChat s InitOutcome.failure).messages = s.messages ++ [initFailureMessage]
    ∧ initFailureMessage.role = Role.error
    ∧ (initChat s InitOutcome.failure).chatRef = none
    ∧ ∀ (input : String) (outcome : SendOutcome),
        handleSendMessage
            { initChat s InitOutcome.failure with userInput := input } outcome =
          ({ initChat s InitOutcome.failure with userInput := input }, false) := by
  refine ⟨rfl, rfl, hchat, fun input outcome => ?_⟩
  rw [handleSendMessage, if_pos]
  exact Or.inr (Or.inr hchat)

/-- Witness for init_failure_disables_sends at the startup state. -/
theorem init_failure_disables_sends_witness :
    (initChat {} InitOutcome.failure).messages =
        ({} : ChatState).messages ++ [initFailureMessage]
    ∧ initFailureMessage.role = Role.error
    ∧ (initChat {} InitOutcome.failure).chatRef = none
    ∧ ∀ (input : String) (outcome : SendOutcome),
        handleSendMessage
            { initChat {} InitOutcome.failure with userInput := input } outcome =
          ({ initChat {} InitOutcome.failure with userInput := input }, false) :=
  init_failure_disables_sends {} rfl

/-- C8: a speech result sets the pending input to the transcript when the input was
empty, and to the input, a single space, and the transcript otherwise; the Message
Store is unchanged, so nothing is auto-sent. -/
theorem speech_result_appends (s : ChatState) (transcript : String) :
    (onResult s transcript).userInput =
        (if s.userInput = "" then transcript else s.userInput ++ " " ++ transcript)
    ∧ (onResult s transcript).messages = s.messages := by
  refine ⟨?_, rfl⟩
  rw [onResult]
  by_cases h : s.userInput = ""
  · simp [h]
  · simp [h, String.append_assoc]

/-- C9: any speech error event resets the recording flag; the store gains the
microphone-permission error Message exactly when the error code is not-allowed, and is
unchanged for every other code. -/
theorem speech_error_resets (s : ChatState) (code : String) :
    (onSpeechError s code).isRecording = false
    ∧ (onSpeechError s code).messages =
        (if code = "not-allowed" then s.messages ++ [micErrorMessage] else s.messages)
    ∧ micErrorMessage.role = Role.error
    ∧ micErrorMessage.content =
        "Microphone access was denied. Please allow it in your browser settings to use voice input." := by
  refine ⟨rfl, ?_, rfl, rfl⟩
  rw [onSpeechError]
  by_cases h : code = "not-allowed" <;> simp [h]

/-- C10: after a send that ends in failure the pending input is empty: it was cleared
on entry to the sending path and the error path never restores it. -/
theorem send_failure_clears_input (s : ChatState)
    (htrim : s.userInput.trim ≠ "") (hload : s.isLoading = false)
    (hchat : s.chatRef ≠ none) :
    (handleSendMessage s SendOutcome.failure).1.userInput = "" := by
  rw [handleSend_guard_pass s _ htrim hload hchat]

/-- Witness for send_failure_clears_input at the concrete idle state. -/
theorem send_failure_clears_input_witness :
    (handleSendMessage wState SendOutcome.failure).1.userInput = "" :=
  send_failure_clears_input wState hi_trim_ne rfl (by decide)

end Asasqs
